import Mathlib

/-!
Shallow embedding of `usb_camera_mic_spk/main/main.c` (ESP32-S3 USB
camera + microphone + speaker demo) and verification of its
specification claims.

The embedding covers:
* the single-slot video frame handoff protocol between `camera_frame_cb`
  (producer, driver context) and `esp_camera_fb_get` / `esp_camera_fb_return`
  (consumer), synchronised through the FreeRTOS event-group bits
  `BIT0_FRAME_START`, `BIT1_NEW_FRAME_START`, `BIT2_NEW_FRAME_END`;
* the speaker-format negotiation in `stream_state_changed_cb`
  (bits `BIT3_SPK_START`, `BIT4_SPK_RESET`);
* the resume/volume control sequence and the resample / bit-depth
  playback loop in `app_main`.
-/

set_option autoImplicit false

namespace UsbCam

/-! ### Video side: frames, slot, and the handoff state machine -/

/-- Frame format tags of `uvc_frame_t.frame_format`; the demo handles only
`UVC_FRAME_FORMAT_MJPEG`. -/
inductive UvcFormat
  | mjpeg
  | yuy2
  | uncompressed
  | unknown
deriving DecidableEq

/-- `uvc_frame_t`: the frame delivered to `camera_frame_cb`. The data
pointer is abstracted to a `Nat` identifier. -/
structure UvcFrame where
  format : UvcFormat
  sequence : Nat
  width : Nat
  height : Nat
  dataBytes : Nat
  data : Nat
deriving DecidableEq

/-- `camera_fb_t`: the single shared frame slot `s_fb`. -/
structure CameraFb where
  buf : Nat
  len : Nat
  width : Nat
  height : Nat
  isJpeg : Bool
  timestampSec : Nat
deriving DecidableEq

/-- `static camera_fb_t s_fb = {0}`. -/
def initFb : CameraFb := ⟨0, 0, 0, 0, false, 0⟩

/-- The slot assignment performed by `camera_frame_cb` in the MJPEG case:
`s_fb.buf = frame->data; s_fb.len = frame->data_bytes; ...;
s_fb.format = PIXFORMAT_JPEG; s_fb.timestamp.tv_sec = frame->sequence`. -/
def populateFb (f : UvcFrame) : CameraFb :=
  { buf := f.data
    len := f.dataBytes
    width := f.width
    height := f.height
    isJpeg := true
    timestampSec := f.sequence }

/-- Program counter of the producer (the driver task running
`camera_frame_cb`): either outside the callback, or blocked inside it on
`xEventGroupWaitBits(BIT2_NEW_FRAME_END)`. -/
inductive PPC
  | idle
  | waitingEnd
deriving DecidableEq

/-- Program counter of the consumer task: outside, blocked inside
`esp_camera_fb_get` on `BIT1_NEW_FRAME_START`, or holding the returned
slot pointer before calling `esp_camera_fb_return`. -/
inductive CPC
  | idle
  | waitingStart
  | reading
deriving DecidableEq

/-- Global state: the three video event-group bits, the slot `s_fb`, both
program counters, and whether `assert(0)` has fired. -/
structure SysState where
  frameStart : Bool
  newFrameStart : Bool
  newFrameEnd : Bool
  slot : CameraFb
  ppc : PPC
  cpc : CPC
  aborted : Bool
deriving DecidableEq

/-- Initial state: event group freshly created (all bits clear), slot
zeroed, both tasks outside the protocol. -/
def initState : SysState := ⟨false, false, false, initFb, PPC.idle, CPC.idle, false⟩

/-- Atomic actions of the two tasks. `driverFrame f` is the capture driver
invoking `camera_frame_cb f`; `producerWake` is that blocked callback
observing `BIT2_NEW_FRAME_END` and returning; `consumerGet`,
`consumerWake`, `consumerReturn` are entry into `esp_camera_fb_get`, its
wait on `BIT1_NEW_FRAME_START` completing, and `esp_camera_fb_return`. -/
inductive Act
  | driverFrame (f : UvcFrame)
  | producerWake
  | consumerGet
  | consumerWake
  | consumerReturn
deriving DecidableEq

/-- Observable events emitted by steps: a publication into the slot, the
producer observing `NewFrameEnd`, a silent frame drop, the `assert(0)`
abort, or any other (consumer-side) step. -/
inductive Ev
  | pub
  | endObs
  | dropped
  | abortEv
  | other
deriving DecidableEq

/-- One step of the system. `none` means the action is not enabled in this
state: the driver cannot invoke `camera_frame_cb` again while the previous
invocation is still blocked (a single driver task runs the callback), a
wait cannot complete while its bit is clear, and nothing runs after
`assert(0)`.

The `driverFrame` branch is `camera_frame_cb` verbatim: if
`!(xEventGroupGetBits(s_evt_handle) & BIT0_FRAME_START)` return (drop);
otherwise switch on the format — MJPEG populates `s_fb`, sets
`BIT1_NEW_FRAME_START` and blocks waiting `BIT2_NEW_FRAME_END`
(auto-clearing); any other format hits `assert(0)`. -/
def stepE (s : SysState) (a : Act) : Option (SysState × Ev) :=
  if s.aborted then none
  else
    match a with
    | Act.driverFrame f =>
      match s.ppc with
      | PPC.waitingEnd => none
      | PPC.idle =>
        if s.frameStart = false then some (s, Ev.dropped)
        else
          match f.format with
          | UvcFormat.mjpeg =>
            some ({ s with slot := populateFb f, newFrameStart := true, ppc := PPC.waitingEnd },
              Ev.pub)
          | _ => some ({ s with aborted := true }, Ev.abortEv)
    | Act.producerWake =>
      match s.ppc with
      | PPC.idle => none
      | PPC.waitingEnd =>
        if s.newFrameEnd then some ({ s with newFrameEnd := false, ppc := PPC.idle }, Ev.endObs)
        else none
    | Act.consumerGet =>
      match s.cpc with
      | CPC.idle => some ({ s with frameStart := true, cpc := CPC.waitingStart }, Ev.other)
      | _ => none
    | Act.consumerWake =>
      match s.cpc with
      | CPC.waitingStart =>
        if s.newFrameStart then
          some ({ s with newFrameStart := false, cpc := CPC.reading }, Ev.other)
        else none
      | _ => none
    | Act.consumerReturn =>
      match s.cpc with
      | CPC.reading => some ({ s with newFrameEnd := true, cpc := CPC.idle }, Ev.other)
      | _ => none

/-- Run a list of actions from a state, collecting the emitted events.
`none` if some action along the way is not enabled. -/
def runE : SysState → List Act → Option (SysState × List Ev)
  | s, [] => some (s, [])
  | s, a :: as =>
    match stepE s a with
    | none => none
    | some (s1, e) =>
      match runE s1 as with
      | none => none
      | some (s2, evs) => some (s2, e :: evs)

/-- Count occurrences of an event in a trace. -/
def countEv (e : Ev) : List Ev → Nat
  | [] => 0
  | x :: xs => (if x = e then 1 else 0) + countEv e xs

/-- 1 when the producer is blocked inside the callback, else 0. -/
def pcInd : PPC → Nat
  | PPC.idle => 0
  | PPC.waitingEnd => 1

/-! ### Audio side: speaker negotiation in `stream_state_changed_cb` -/

/-- `uac_frame_size_t`: one entry of the device-reported audio format
list (`ch_num`, `bit_resolution`, `samples_frequence`, and the
min/max range, which the demo only logs). -/
structure UacFrameSize where
  chNum : Nat
  bitResolution : Nat
  samplesFrequence : Nat
  samplesFrequenceMin : Nat
  samplesFrequenceMax : Nat
deriving DecidableEq

/-- The stored speaker descriptor: the globals `s_spk_samples_frequence`,
`s_spk_ch_num`, `s_spk_bit_resolution`. -/
structure SpkFormat where
  samplesFrequence : Nat
  chNum : Nat
  bitResolution : Nat
deriving DecidableEq

/-- Initial values of the three speaker globals (all 0, i.e. "unset"). -/
def initSpkFormat : SpkFormat := ⟨0, 0, 0⟩

/-- Result of the speaker portion of the `STREAM_CONNECTED` handler: the
updated stored descriptor and how many times `xEventGroupSetBits` was
called with `BIT4_SPK_RESET` resp. `BIT3_SPK_START`. -/
structure SpkConnectResult where
  fmt : SpkFormat
  resetCount : Nat
  startCount : Nat
deriving DecidableEq

/-- The speaker section of `stream_state_changed_cb` on `STREAM_CONNECTED`
(`main.c` lines 250–289): if the reported list is empty only a warning is
logged; otherwise the entry at the active index `frame_index` is compared
field-by-field with the stored globals — on any difference `BIT4_SPK_RESET`
is set if `s_spk_samples_frequence` was non-zero and the globals are
updated — and `BIT3_SPK_START` is always set. -/
def spkConnect (st : SpkFormat) (list : List UacFrameSize) (idx : Nat) : SpkConnectResult :=
  if list.length = 0 then ⟨st, 0, 0⟩
  else
    let d := list.getD idx ⟨0, 0, 0, 0, 0⟩
    if st.samplesFrequence ≠ d.samplesFrequence ∨ st.chNum ≠ d.chNum ∨
        st.bitResolution ≠ d.bitResolution then
      ⟨⟨d.samplesFrequence, d.chNum, d.bitResolution⟩,
        if st.samplesFrequence ≠ 0 then 1 else 0, 1⟩
    else ⟨st, 0, 1⟩

/-! ### Playback task: resume sequence and resample pipeline (`app_main`) -/

/-- Outcome of the resume/volume sequence after `BIT3_SPK_START` is
observed. -/
inductive ResumeOutcome
  | fatalAbort
  | streaming
deriving DecidableEq

/-- `ESP_ERROR_CHECK`: continues only on `ESP_OK` (0), otherwise aborts. -/
def espErrorCheck (e : Nat) : Bool := e = 0

/-- The control sequence in `app_main` after the wait on `BIT3_SPK_START`
(lines 404–412): `ESP_ERROR_CHECK(usb_streaming_control(STREAM_UAC_SPK,
CTRL_RESUME, NULL))`, then two `usb_streaming_control(.., CTRL_UAC_VOLUME,
80)` calls for speaker and microphone whose results are not checked. The
arguments are the `esp_err_t` results of the three collaborator calls. -/
def speakerResumeSeq (resumeRes volSpkRes volMicRes : Nat) : ResumeOutcome :=
  if espErrorCheck resumeRes then ResumeOutcome.streaming
  else ResumeOutcome.fatalAbort

/-- `int freq_offsite_step = 32000 / s_spk_samples_frequence;` — the wave
source `wave_array_32000_16_1` is 32000 Hz. -/
def freqOffsiteStep (spkFreq : Nat) : Nat := 32000 / spkFreq

/-- `int downsampling_bits = 16 - s_spk_bit_resolution;` — the wave source
is 16-bit. C `int` arithmetic, hence `Int`. -/
def downsamplingBits (spkBits : Nat) : Int := 16 - (spkBits : Int)

/-- `const int buffer_ms = 400;` -/
def bufferMs : Nat := 400

/-- `const int buffer_size = buffer_ms * (s_spk_bit_resolution / 8) *
(s_spk_samples_frequence / 1000);` -/
def bufferSize (spkBits spkFreq : Nat) : Nat :=
  bufferMs * (spkBits / 8) * (spkFreq / 1000)

/-- `size_t offset_size = buffer_size / (s_spk_bit_resolution / 8);` -/
def offsetSize (spkBits spkFreq : Nat) : Nat :=
  bufferSize spkBits spkFreq / (spkBits / 8)

/-- The `uint16_t` read `*(s_buffer + k)`: the wave is modelled as a
function from `uint16_t` index to cell contents, masked to 16 bits. -/
def srcSample (wave : Nat → Nat) (k : Nat) : Nat := wave k % 65536

/-- `d_buffer[i] = *(s_buffer + i * freq_offsite_step) >> downsampling_bits;`
with `cursor` the index of `s_buffer` in `uint16_t` units from the start of
the wave array. -/
def dSample (wave : Nat → Nat) (step shift cursor i : Nat) : Nat :=
  srcSample wave (cursor + i * step) >>> shift

/-- Byte `j` of the data handed to `uac_spk_streaming_write(d_buffer,
buffer_size, ..)`: `d_buffer` is an array of `uint16_t`, so byte `j` is
the low (j even) or high (j odd) byte of entry `j / 2`. -/
def chunkByte (wave : Nat → Nat) (step shift cursor j : Nat) : Nat :=
  let v := dSample wave step shift cursor (j / 2)
  if j % 2 = 0 then v % 256 else v / 256 % 256

/-- The `buffer_size` bytes written to the speaker sink for one chunk. -/
def chunkBytes (wave : Nat → Nat) (step shift cursor size : Nat) : List Nat :=
  (List.range size).map (chunkByte wave step shift cursor)

/-- One iteration of the playback `while (1)` loop: either the
end-of-array branch (reset `s_buffer` to the array start and
`vTaskDelay(pdMS_TO_TICKS(1000))`), or fill + write + cursor advance. -/
inductive PlayStep
  | resetIdle (cursor : Nat)
  | emit (chunk : List Nat) (cursor : Nat)
deriving DecidableEq

/-- Whether a `PlayStep` emitted a chunk. -/
def PlayStep.isEmit : PlayStep → Bool
  | PlayStep.emit _ _ => true
  | _ => false

/-- One playback-loop iteration (`main.c` lines 437–453). `L` is
`s_buffer_size` (the wave array length in bytes) and `cursor` the offset
of `s_buffer` from the array start in `uint16_t` units, so the guard
`(uint32_t)(s_buffer + offset_size) >= (uint32_t)(wave_array_32000_16_1 +
s_buffer_size)` reads `2 * (cursor + offSize) ≥ L`. On emit the cursor
advances by `offset_size * freq_offsite_step` (`s_buffer += offset_size *
freq_offsite_step`). -/
def playIter (wave : Nat → Nat) (L step shift offSize chunkSize cursor : Nat) : PlayStep :=
  if 2 * (cursor + offSize) ≥ L then PlayStep.resetIdle 0
  else PlayStep.emit (chunkBytes wave step shift cursor chunkSize) (cursor + offSize * step)

/-- All `uint16_t` reads `*(s_buffer + i * step)` of one chunk fill stay
inside the wave array: the high byte of each read cell is below `L`. -/
def readsInBounds (L step offSize cursor : Nat) : Bool :=
  (List.range offSize).all (fun i => 2 * (cursor + i * step) + 1 < L)

/-- A concrete MJPEG frame, used by concrete runs. -/
def mjFrame : UvcFrame := ⟨UvcFormat.mjpeg, 1, 640, 480, 5120, 42⟩

/-- A concrete non-MJPEG frame, used by concrete runs. -/
def yuyFrame : UvcFrame := ⟨UvcFormat.yuy2, 2, 640, 480, 5120, 43⟩

/-! ### Helper lemmas about the handoff state machine -/

/-- Inversion: a successful step is exactly one of the seven transitions
of the protocol. -/
lemma stepE_inv (s : SysState) (a : Act) (s1 : SysState) (e : Ev)
    (h : stepE s a = some (s1, e)) :
    s.aborted = false ∧
    ((∃ f, a = Act.driverFrame f ∧ s.ppc = PPC.idle ∧ s.frameStart = false ∧
        s1 = s ∧ e = Ev.dropped) ∨
     (∃ f, a = Act.driverFrame f ∧ s.ppc = PPC.idle ∧ s.frameStart = true ∧
        f.format = UvcFormat.mjpeg ∧
        s1 = { s with slot := populateFb f, newFrameStart := true, ppc := PPC.waitingEnd } ∧
        e = Ev.pub) ∨
     (∃ f, a = Act.driverFrame f ∧ s.ppc = PPC.idle ∧ s.frameStart = true ∧
        f.format ≠ UvcFormat.mjpeg ∧ s1 = { s with aborted := true } ∧ e = Ev.abortEv) ∨
     (a = Act.producerWake ∧ s.ppc = PPC.waitingEnd ∧ s.newFrameEnd = true ∧
        s1 = { s with newFrameEnd := false, ppc := PPC.idle } ∧ e = Ev.endObs) ∨
     (a = Act.consumerGet ∧ s.cpc = CPC.idle ∧
        s1 = { s with frameStart := true, cpc := CPC.waitingStart } ∧ e = Ev.other) ∨
     (a = Act.consumerWake ∧ s.cpc = CPC.waitingStart ∧ s.newFrameStart = true ∧
        s1 = { s with newFrameStart := false, cpc := CPC.reading } ∧ e = Ev.other) ∨
     (a = Act.consumerReturn ∧ s.cpc = CPC.reading ∧
        s1 = { s with newFrameEnd := true, cpc := CPC.idle } ∧ e = Ev.other)) := by
  have hab : s.aborted = false := by
    by_cases hab : s.aborted = true
    · rw [stepE.eq_def, if_pos hab] at h; exact absurd h (by simp)
    · simpa using hab
  refine ⟨hab, ?_⟩
  rw [stepE.eq_def, if_neg (by simp [hab])] at h
  cases a with
  | driverFrame f =>
    cases hpc : s.ppc with
    | waitingEnd => rw [hpc] at h; exact absurd h (by simp)
    | idle =>
      rw [hpc] at h
      simp only at h
      by_cases hfs : s.frameStart = false
      · rw [if_pos hfs] at h
        simp only [Option.some.injEq, Prod.mk.injEq] at h
        exact Or.inl ⟨f, rfl, rfl, hfs, h.1.symm, h.2.symm⟩
      · have hfs1 : s.frameStart = true := by
          cases hb : s.frameStart
          · exact absurd hb hfs
          · rfl
        rw [if_neg hfs] at h
        cases hfmt : f.format with
        | mjpeg =>
          rw [hfmt] at h
          simp only [Option.some.injEq, Prod.mk.injEq] at h
          exact Or.inr (Or.inl ⟨f, rfl, rfl, hfs1, hfmt, h.1.symm, h.2.symm⟩)
        | yuy2 =>
          rw [hfmt] at h
          simp only [Option.some.injEq, Prod.mk.injEq] at h
          exact Or.inr (Or.inr (Or.inl ⟨f, rfl, rfl, hfs1, by simp [hfmt], h.1.symm, h.2.symm⟩))
        | uncompressed =>
          rw [hfmt] at h
          simp only [Option.some.injEq, Prod.mk.injEq] at h
          exact Or.inr (Or.inr (Or.inl ⟨f, rfl, rfl, hfs1, by simp [hfmt], h.1.symm, h.2.symm⟩))
        | unknown =>
          rw [hfmt] at h
          simp only [Option.some.injEq, Prod.mk.injEq] at h
          exact Or.inr (Or.inr (Or.inl ⟨f, rfl, rfl, hfs1, by simp [hfmt], h.1.symm, h.2.symm⟩))
  | producerWake =>
    cases hpc : s.ppc with
    | idle => rw [hpc] at h; exact absurd h (by simp)
    | waitingEnd =>
      rw [hpc] at h
      simp only at h
      by_cases hne : s.newFrameEnd = true
      · rw [if_pos hne] at h
        simp only [Option.some.injEq, Prod.mk.injEq] at h
        exact Or.inr (Or.inr (Or.inr (Or.inl ⟨rfl, rfl, hne, h.1.symm, h.2.symm⟩)))
      · rw [if_neg hne] at h; exact absurd h (by simp)
  | consumerGet =>
    cases hc : s.cpc with
    | idle =>
      rw [hc] at h
      simp only [Option.some.injEq, Prod.mk.injEq] at h
      exact Or.inr (Or.inr (Or.inr (Or.inr (Or.inl ⟨rfl, rfl, h.1.symm, h.2.symm⟩))))
    | waitingStart => rw [hc] at h; exact absurd h (by simp)
    | reading => rw [hc] at h; exact absurd h (by simp)
  | consumerWake =>
    cases hc : s.cpc with
    | idle => rw [hc] at h; exact absurd h (by simp)
    | reading => rw [hc] at h; exact absurd h (by simp)
    | waitingStart =>
      rw [hc] at h
      simp only at h
      by_cases hns : s.newFrameStart = true
      · rw [if_pos hns] at h
        simp only [Option.some.injEq, Prod.mk.injEq] at h
        exact Or.inr (Or.inr (Or.inr (Or.inr (Or.inr (Or.inl ⟨rfl, rfl, hns, h.1.symm, h.2.symm⟩)))))
      · rw [if_neg hns] at h; exact absurd h (by simp)
  | consumerReturn =>
    cases hc : s.cpc with
    | idle => rw [hc] at h; exact absurd h (by simp)
    | waitingStart => rw [hc] at h; exact absurd h (by simp)
    | reading =>
      rw [hc] at h
      simp only [Option.some.injEq, Prod.mk.injEq] at h
      exact Or.inr (Or.inr (Or.inr (Or.inr (Or.inr (Or.inr ⟨rfl, rfl, h.1.symm, h.2.symm⟩)))))

/-- Each step balances publications against end observations through the
producer's program counter. -/
lemma stepE_ppc_count (s : SysState) (a : Act) (s1 : SysState) (e : Ev)
    (h : stepE s a = some (s1, e)) :
    (if e = Ev.pub then 1 else 0) + pcInd s.ppc
      = (if e = Ev.endObs then 1 else 0) + pcInd s1.ppc := by
  rcases (stepE_inv s a s1 e h).2 with
    ⟨f, _, hpc, _, rfl, rfl⟩ | ⟨f, _, hpc, _, _, rfl, rfl⟩ | ⟨f, _, hpc, _, _, rfl, rfl⟩ |
    ⟨_, hpc, _, rfl, rfl⟩ | ⟨_, _, rfl, rfl⟩ | ⟨_, _, _, rfl, rfl⟩ | ⟨_, _, rfl, rfl⟩ <;>
    simp_all [pcInd]

/-- Only a publication mutates the slot. -/
lemma stepE_slot_of_ne_pub (s : SysState) (a : Act) (s1 : SysState) (e : Ev)
    (h : stepE s a = some (s1, e)) (hne : e ≠ Ev.pub) : s1.slot = s.slot := by
  rcases (stepE_inv s a s1 e h).2 with
    ⟨f, _, _, _, rfl, rfl⟩ | ⟨f, _, _, _, _, rfl, rfl⟩ | ⟨f, _, _, _, _, rfl, rfl⟩ |
    ⟨_, _, _, rfl, rfl⟩ | ⟨_, _, rfl, rfl⟩ | ⟨_, _, _, rfl, rfl⟩ | ⟨_, _, rfl, rfl⟩ <;>
    first
    | rfl
    | exact absurd rfl hne

/-- No step ever clears `BIT0_FRAME_START`. -/
lemma stepE_frameStart_mono (s : SysState) (a : Act) (s1 : SysState) (e : Ev)
    (h : stepE s a = some (s1, e)) (hfs : s.frameStart = true) : s1.frameStart = true := by
  rcases (stepE_inv s a s1 e h).2 with
    ⟨f, _, _, _, rfl, rfl⟩ | ⟨f, _, _, _, _, rfl, rfl⟩ | ⟨f, _, _, _, _, rfl, rfl⟩ |
    ⟨_, _, _, rfl, rfl⟩ | ⟨_, _, rfl, rfl⟩ | ⟨_, _, _, rfl, rfl⟩ | ⟨_, _, rfl, rfl⟩ <;>
    simp [hfs]

/-- Only `esp_camera_fb_get` (the `consumerGet` action) touches
`BIT0_FRAME_START`. -/
lemma stepE_frameStart_of_ne (s : SysState) (a : Act) (s1 : SysState) (e : Ev)
    (h : stepE s a = some (s1, e)) (hna : a ≠ Act.consumerGet) :
    s1.frameStart = s.frameStart := by
  rcases (stepE_inv s a s1 e h).2 with
    ⟨f, _, _, _, rfl, rfl⟩ | ⟨f, _, _, _, _, rfl, rfl⟩ | ⟨f, _, _, _, _, rfl, rfl⟩ |
    ⟨_, _, _, rfl, rfl⟩ | ⟨hag, _, rfl, rfl⟩ | ⟨_, _, _, rfl, rfl⟩ | ⟨_, _, rfl, rfl⟩ <;>
    first
    | rfl
    | exact absurd hag hna

/-- Run-level balance: over any run, publications minus end observations
equals the change in the producer's blocked indicator. -/
lemma runE_count (acts : List Act) : ∀ (s s2 : SysState) (evs : List Ev),
    runE s acts = some (s2, evs) →
    countEv Ev.pub evs + pcInd s.ppc = countEv Ev.endObs evs + pcInd s2.ppc := by
  induction acts with
  | nil =>
    intro s s2 evs h
    simp only [runE, Option.some.injEq, Prod.mk.injEq] at h
    obtain ⟨rfl, rfl⟩ := h
    rfl
  | cons a as ih =>
    intro s s2 evs h
    rw [runE] at h
    cases hs : stepE s a with
    | none => rw [hs] at h; exact absurd h (by simp)
    | some p =>
      obtain ⟨s1, e⟩ := p
      rw [hs] at h
      dsimp only at h
      cases hr : runE s1 as with
      | none => rw [hr] at h; exact absurd h (by simp)
      | some q =>
        obtain ⟨s3, evs1⟩ := q
        rw [hr] at h
        simp only [Option.some.injEq, Prod.mk.injEq] at h
        obtain ⟨rfl, rfl⟩ := h
        have h1 := stepE_ppc_count s a s1 e hs
        have h2 := ih s1 s3 evs1 hr
        cases e <;> simp only [countEv] <;> simp at h1 ⊢ <;> omega

/-- Over any run that performs no `consumerGet`, `BIT0_FRAME_START` is
unchanged. -/
lemma runE_frameStart (acts : List Act) : ∀ (s s2 : SysState) (evs : List Ev),
    runE s acts = some (s2, evs) → Act.consumerGet ∉ acts →
    s2.frameStart = s.frameStart := by
  induction acts with
  | nil =>
    intro s s2 evs h _
    simp only [runE, Option.some.injEq, Prod.mk.injEq] at h
    obtain ⟨rfl, rfl⟩ := h
    rfl
  | cons a as ih =>
    intro s s2 evs h hmem
    rw [runE] at h
    cases hs : stepE s a with
    | none => rw [hs] at h; exact absurd h (by simp)
    | some p =>
      obtain ⟨s1, e⟩ := p
      rw [hs] at h
      dsimp only at h
      cases hr : runE s1 as with
      | none => rw [hr] at h; exact absurd h (by simp)
      | some q =>
        obtain ⟨s3, evs1⟩ := q
        rw [hr] at h
        simp only [Option.some.injEq, Prod.mk.injEq] at h
        obtain ⟨rfl, rfl⟩ := h
        have hna : a ≠ Act.consumerGet := by
          intro hcontra
          exact hmem (by simp [hcontra])
        have h1 := stepE_frameStart_of_ne s a s1 e hs hna
        have h2 := ih s1 s3 evs1 hr (by intro hx; exact hmem (by simp [hx]))
        rw [h2, h1]

/-- The producer's blocked indicator never exceeds 1. -/
lemma pcInd_le_one (p : PPC) : pcInd p ≤ 1 := by
  cases p <;> simp [pcInd]

/-! ### Claim theorems: video handoff -/

/-- C1: for every sequence of `camera_frame_cb` invocations interleaved
with `esp_camera_fb_get` / `esp_camera_fb_return` operations, no second
frame is published into the single slot while the previous publication's
`NewFrameEnd` has not been observed: in the event trace of every run from
the initial state, publications and `NewFrameEnd` observations strictly
alternate (`endObs ≤ pub ≤ endObs + 1`, and since every prefix of a run
is itself a run, this bounds every prefix), and only a publication step
writes the slot. After setting `NewFrameStart` the producer blocks until
`NewFrameEnd` before returning, which is what forces the alternation. -/
theorem camera_handoff_alternation :
    (∀ acts s evs, runE initState acts = some (s, evs) →
      countEv Ev.endObs evs ≤ countEv Ev.pub evs ∧
      countEv Ev.pub evs ≤ countEv Ev.endObs evs + 1) ∧
    (∀ s a s1 e, stepE s a = some (s1, e) → e ≠ Ev.pub → s1.slot = s.slot) := by
  constructor
  · intro acts s evs h
    have hc := runE_count acts initState s evs h
    have hle := pcInd_le_one s.ppc
    have h0 : pcInd initState.ppc = 0 := rfl
    rw [h0] at hc
    omega
  · exact stepE_slot_of_ne_pub

/-- Witness for C1: a concrete five-step run (get, frame, wake, return,
producer wake) whose event trace alternates. -/
theorem camera_handoff_alternation_witness :
    countEv Ev.endObs [Ev.other, Ev.pub, Ev.other, Ev.other, Ev.endObs] ≤
      countEv Ev.pub [Ev.other, Ev.pub, Ev.other, Ev.other, Ev.endObs] ∧
    countEv Ev.pub [Ev.other, Ev.pub, Ev.other, Ev.other, Ev.endObs] ≤
      countEv Ev.endObs [Ev.other, Ev.pub, Ev.other, Ev.other, Ev.endObs] + 1 :=
  camera_handoff_alternation.1
    [Act.consumerGet, Act.driverFrame mjFrame, Act.consumerWake, Act.consumerReturn,
      Act.producerWake]
    ⟨true, false, false, populateFb mjFrame, PPC.idle, CPC.idle, false⟩
    [Ev.other, Ev.pub, Ev.other, Ev.other, Ev.endObs]
    (by decide)

/-- C5: with `FrameStart` asserted, a frame whose format tag is not the
single supported MJPEG format makes `camera_frame_cb` hit `assert(0)`:
the step moves to the aborted state, the slot is not populated, and no
further step is possible (fatal, unrecoverable; the callback does not
return normally). -/
theorem unsupported_format_aborts (s : SysState) (f : UvcFrame)
    (hab : s.aborted = false) (hpc : s.ppc = PPC.idle) (hfs : s.frameStart = true)
    (hfmt : f.format ≠ UvcFormat.mjpeg) :
    stepE s (Act.driverFrame f) = some ({ s with aborted := true }, Ev.abortEv) ∧
    ({ s with aborted := true } : SysState).slot = s.slot ∧
    ∀ a, stepE { s with aborted := true } a = none := by
  refine ⟨?_, rfl, ?_⟩
  · rw [stepE.eq_def, if_neg (by simp [hab])]
    dsimp only
    rw [hpc]
    dsimp only
    rw [if_neg (by simp [hfs])]
    cases hf : f.format with
    | mjpeg => exact absurd hf hfmt
    | yuy2 => rfl
    | uncompressed => rfl
    | unknown => rfl
  · intro a
    rw [stepE.eq_def,
      if_pos (show ({ s with aborted := true } : SysState).aborted = true from rfl)]

/-- Witness for C5: a YUY2 frame with `FrameStart` asserted aborts from a
concrete state and leaves the slot untouched. -/
theorem unsupported_format_aborts_witness :
    stepE ⟨true, false, false, initFb, PPC.idle, CPC.idle, false⟩ (Act.driverFrame yuyFrame) =
      some (⟨true, false, false, initFb, PPC.idle, CPC.idle, true⟩, Ev.abortEv) :=
  (unsupported_format_aborts ⟨true, false, false, initFb, PPC.idle, CPC.idle, false⟩ yuyFrame
    rfl rfl rfl (by decide)).1

/-- C6: if `FrameStart` is not asserted, `camera_frame_cb` returns
immediately for any frame whatever its format: the step emits `dropped`,
does not block (the producer stays outside the callback), sets no flag
and mutates nothing — the post-state is the pre-state. Moreover, if
`esp_camera_fb_get` is never called, `FrameStart` stays clear along every
run, so this applies to every invocation. -/
theorem no_consumer_frame_drop :
    (∀ s f, s.frameStart = false → s.aborted = false → s.ppc = PPC.idle →
      stepE s (Act.driverFrame f) = some (s, Ev.dropped)) ∧
    (∀ acts s evs, runE initState acts = some (s, evs) → Act.consumerGet ∉ acts →
      s.frameStart = false) := by
  constructor
  · intro s f hfs hab hpc
    rw [stepE.eq_def, if_neg (by simp [hab])]
    dsimp only
    rw [hpc]
    dsimp only
    rw [if_pos hfs]
  · intro acts s evs h hmem
    have hfs := runE_frameStart acts initState s evs h hmem
    simpa [initState] using hfs

/-- Witness for C6: from the initial state (where `FrameStart` was never
asserted), even a non-MJPEG frame is silently dropped with no state
change. -/
theorem no_consumer_frame_drop_witness :
    stepE initState (Act.driverFrame yuyFrame) = some (initState, Ev.dropped) :=
  no_consumer_frame_drop.1 initState yuyFrame rfl rfl rfl

/-- C10: no operation ever clears `FrameStart` — `esp_camera_fb_get` is
the only action that touches it (setting it), and the producer only reads
it — so once it is set, every later supported frame arriving while the
producer is free is published into the slot and leaves the producer
blocked until `NewFrameEnd`, regardless of the consumer's state (even if
no consumer is currently waiting). -/
theorem frame_start_latched :
    (∀ s a s1 e, stepE s a = some (s1, e) → s.frameStart = true → s1.frameStart = true) ∧
    (∀ s a s1 e, stepE s a = some (s1, e) → a ≠ Act.consumerGet →
      s1.frameStart = s.frameStart) ∧
    (∀ s f, s.aborted = false → s.ppc = PPC.idle → s.frameStart = true →
      f.format = UvcFormat.mjpeg →
      stepE s (Act.driverFrame f) =
        some ({ s with slot := populateFb f, newFrameStart := true, ppc := PPC.waitingEnd },
          Ev.pub)) := by
  refine ⟨?_, ?_, ?_⟩
  · exact stepE_frameStart_mono
  · exact stepE_frameStart_of_ne
  · intro s f hab hpc hfs hfmt
    rw [stepE.eq_def, if_neg (by simp [hab])]
    dsimp only
    rw [hpc]
    dsimp only
    rw [if_neg (by simp [hfs]), hfmt]

/-- Witness for C10: in a concrete state where `FrameStart` is set and no
consumer is waiting (consumer idle), an MJPEG frame is still published
and the producer ends up blocked on `NewFrameEnd`. -/
theorem frame_start_latched_witness :
    stepE ⟨true, false, false, initFb, PPC.idle, CPC.idle, false⟩ (Act.driverFrame mjFrame) =
      some (⟨true, true, false, populateFb mjFrame, PPC.waitingEnd, CPC.idle, false⟩, Ev.pub) :=
  frame_start_latched.2.2 ⟨true, false, false, initFb, PPC.idle, CPC.idle, false⟩ mjFrame
    rfl rfl rfl rfl

/-! ### Claim theorems: speaker negotiation -/

/-- `List.getD` agrees with `List.get` at an in-range index. -/
lemma getD_eq_get {α : Type} (l : List α) (d : α) :
    ∀ (n : Nat) (h : n < l.length), l.getD n d = l.get ⟨n, h⟩ := by
  induction l with
  | nil => intro n h; exact absurd h (by simp)
  | cons x xs ih =>
    intro n h
    cases n with
    | zero => rfl
    | succ m => exact ih m (by simpa using h)

/-- C2: on a connect event with a non-empty speaker list, `BIT4_SPK_RESET`
is set exactly once when the stored descriptor D1 and the list entry D2 at
the active index differ in any of rate, channels or bit resolution and
D1's rate is non-zero; when D1's rate is 0 (first-ever negotiation) it is
never set; and when D1 and D2 agree it is not set. -/
theorem spk_reset_policy (st : SpkFormat) (list : List UacFrameSize) (idx : Nat)
    (h : idx < list.length) :
    (st.samplesFrequence = 0 → (spkConnect st list idx).resetCount = 0) ∧
    (st.samplesFrequence ≠ 0 →
      (st.samplesFrequence ≠ (list.get ⟨idx, h⟩).samplesFrequence ∨
       st.chNum ≠ (list.get ⟨idx, h⟩).chNum ∨
       st.bitResolution ≠ (list.get ⟨idx, h⟩).bitResolution) →
      (spkConnect st list idx).resetCount = 1) ∧
    ((st.samplesFrequence = (list.get ⟨idx, h⟩).samplesFrequence ∧
      st.chNum = (list.get ⟨idx, h⟩).chNum ∧
      st.bitResolution = (list.get ⟨idx, h⟩).bitResolution) →
      (spkConnect st list idx).resetCount = 0) := by
  have hlen : ¬ list.length = 0 := by omega
  have hd := getD_eq_get list (⟨0, 0, 0, 0, 0⟩ : UacFrameSize) idx h
  refine ⟨?_, ?_, ?_⟩
  · intro h0
    simp only [spkConnect, if_neg hlen, hd]
    split
    · simp [h0]
    · rfl
  · intro h0 hch
    simp only [spkConnect, if_neg hlen, hd]
    rw [if_pos hch]
    simp [h0]
  · intro heq
    simp only [spkConnect, if_neg hlen, hd]
    rw [if_neg (by simp [heq.1, heq.2.1, heq.2.2])]

/-- Witness for C2 at concrete descriptors: stored 16000/1/16, device
reports 48000/1/16 at index 0 — reset fires once; and from the unset
descriptor (rate 0) it does not fire. -/
theorem spk_reset_policy_witness :
    (spkConnect ⟨16000, 1, 16⟩ [⟨1, 16, 48000, 48000, 48000⟩] 0).resetCount = 1 ∧
    (spkConnect initSpkFormat [⟨1, 16, 48000, 48000, 48000⟩] 0).resetCount = 0 :=
  ⟨(spk_reset_policy ⟨16000, 1, 16⟩ [⟨1, 16, 48000, 48000, 48000⟩] 0 (by decide)).2.1
      (by decide) (Or.inl (by decide)),
    (spk_reset_policy initSpkFormat [⟨1, 16, 48000, 48000, 48000⟩] 0 (by decide)).1 rfl⟩

/-- C8: on every connect event with a non-empty speaker list, the stored
descriptor ends up equal to the list entry at the active index and
`BIT3_SPK_START` is set exactly once; with an empty list the stored
descriptor is unchanged and neither `SpeakerStart` nor `SpeakerReset` is
set. -/
theorem spk_negotiation_update :
    (∀ (st : SpkFormat) (list : List UacFrameSize) (idx : Nat) (h : idx < list.length),
      (spkConnect st list idx).fmt =
        ⟨(list.get ⟨idx, h⟩).samplesFrequence, (list.get ⟨idx, h⟩).chNum,
          (list.get ⟨idx, h⟩).bitResolution⟩ ∧
      (spkConnect st list idx).startCount = 1) ∧
    (∀ (st : SpkFormat) (idx : Nat), spkConnect st [] idx = ⟨st, 0, 0⟩) := by
  constructor
  · intro st list idx h
    have hlen : ¬ list.length = 0 := by omega
    have hd := getD_eq_get list (⟨0, 0, 0, 0, 0⟩ : UacFrameSize) idx h
    constructor
    · simp only [spkConnect, if_neg hlen, hd]
      split
      · rfl
      · rename_i hch
        simp only [not_or, not_not] at hch
        obtain ⟨h1, h2, h3⟩ := hch
        cases st
        simp_all
    · simp only [spkConnect, if_neg hlen, hd]
      split <;> rfl
  · intro st idx
    rfl

/-- Witness for C8: a concrete first negotiation stores the reported
format and starts the speaker. -/
theorem spk_negotiation_update_witness :
    (spkConnect initSpkFormat [⟨1, 16, 16000, 16000, 16000⟩] 0).fmt = ⟨16000, 1, 16⟩ ∧
    (spkConnect initSpkFormat [⟨1, 16, 16000, 16000, 16000⟩] 0).startCount = 1 :=
  spk_negotiation_update.1 initSpkFormat [⟨1, 16, 16000, 16000, 16000⟩] 0 (by decide)

/-! ### Claim theorems: playback task -/

/-- C9: after `BIT3_SPK_START` is observed, a failing
`CTRL_RESUME` (non-`ESP_OK` result) is fatal via `ESP_ERROR_CHECK`,
while the two `CTRL_UAC_VOLUME` results are not checked: streaming is
reached whenever resume succeeds, whatever the volume results, and the
outcome never depends on the volume results. -/
theorem resume_failure_fatal :
    (∀ resumeRes volSpkRes volMicRes : Nat, resumeRes ≠ 0 →
      speakerResumeSeq resumeRes volSpkRes volMicRes = ResumeOutcome.fatalAbort) ∧
    (∀ volSpkRes volMicRes : Nat,
      speakerResumeSeq 0 volSpkRes volMicRes = ResumeOutcome.streaming) ∧
    (∀ resumeRes v1 v2 w1 w2 : Nat,
      speakerResumeSeq resumeRes v1 v2 = speakerResumeSeq resumeRes w1 w2) := by
  refine ⟨?_, ?_, ?_⟩
  · intro r v1 v2 hr
    simp [speakerResumeSeq, espErrorCheck, hr]
  · intro v1 v2
    simp [speakerResumeSeq, espErrorCheck]
  · intro r v1 v2 w1 w2
    rfl

/-- Witness for C9: resume failing with `ESP_ERR_NOT_FOUND`-like code 261
aborts even with both volume calls succeeding; resume succeeding reaches
streaming even with both volume calls failing. -/
theorem resume_failure_fatal_witness :
    speakerResumeSeq 261 0 0 = ResumeOutcome.fatalAbort ∧
    speakerResumeSeq 0 261 261 = ResumeOutcome.streaming :=
  ⟨resume_failure_fatal.1 261 0 0 (by decide), resume_failure_fatal.2.1 261 261⟩

/-- C3: for source 32000 Hz / 16-bit and negotiated 16000 Hz / 16-bit,
the derived stride is 2, the derived shift is 0, the chunk byte size is
`400 * (16/8) * (16000/1000) = 12800`, and every output sample of a chunk
equals, unshifted, the source sample at `cursor + 2 * i`. -/
theorem resample_16k_16bit_correct :
    freqOffsiteStep 16000 = 2 ∧
    downsamplingBits 16 = 0 ∧
    bufferSize 16 16000 = 12800 ∧
    (∀ (wave : Nat → Nat) (cursor i : Nat),
      dSample wave (freqOffsiteStep 16000) (downsamplingBits 16).toNat cursor i
        = srcSample wave (cursor + 2 * i)) := by
  refine ⟨rfl, rfl, rfl, ?_⟩
  intro wave cursor i
  simp [dSample, freqOffsiteStep, downsamplingBits, Nat.mul_comm]

/-- C7, evaluated at the failing input (8-bit target, 8000 Hz, all wave
cells `0x1234`): the derived shift is 8 as claimed, but since `d_buffer`
remains `uint16_t*`, byte 0 of the emitted chunk is the top 8 bits (18)
while byte 1 is the zero high byte of entry 0 — not the top 8 bits (18)
of source sample `0 + 1 * step` the claim requires — and the fill loop
writes `2 * offset_size` bytes into the `buffer_size`-byte allocation. -/
theorem depth8_truncation_bug :
    downsamplingBits 8 = 8 ∧
    freqOffsiteStep 8000 = 4 ∧
    bufferSize 8 8000 = 3200 ∧
    offsetSize 8 8000 = 3200 ∧
    (chunkBytes (fun _ => 4660) 4 8 0 (bufferSize 8 8000)).length = bufferSize 8 8000 ∧
    chunkByte (fun _ => 4660) 4 8 0 0 = 18 ∧
    chunkByte (fun _ => 4660) 4 8 0 1 = 0 ∧
    srcSample (fun _ => 4660) (0 + 1 * 4) >>> 8 = 18 ∧
    2 * offsetSize 8 8000 > bufferSize 8 8000 := by
  refine ⟨by decide, by decide, by decide, by decide, ?_, by decide, by decide, by decide,
    by decide⟩
  simp [chunkBytes]

set_option maxRecDepth 100000 in
/-- C4, evaluated at the failing input (16-bit / 16000 Hz, so stride 2 and
6400 output samples per chunk; wave length 12801 bytes, cursor at the
start): the end-of-array guard `(uint32_t)(s_buffer + offset_size) >=
(uint32_t)(wave_array + s_buffer_size)` does not fire, a chunk is
emitted, yet the fill loop's reads `*(s_buffer + i * step)` leave the
wave array (read of bytes 25596–25597 in a 12801-byte array at
`i = 6399`). -/
theorem playback_bounds_bug :
    freqOffsiteStep 16000 = 2 ∧
    offsetSize 16 16000 = 6400 ∧
    (∀ wave : Nat → Nat,
      (playIter wave 12801 (freqOffsiteStep 16000) (downsamplingBits 16).toNat
        (offsetSize 16 16000) (bufferSize 16 16000) 0).isEmit = true) ∧
    (6399 < offsetSize 16 16000 ∧
      ¬ (2 * (0 + 6399 * freqOffsiteStep 16000) + 1 < 12801)) ∧
    readsInBounds 12801 (freqOffsiteStep 16000) (offsetSize 16 16000) 0 = false := by
  refine ⟨rfl, by decide, ?_, by decide, by decide⟩
  intro wave
  rw [playIter, if_neg (by decide)]
  rfl

end UsbCam
